import Mathlib

/-!
Shallow embedding of the bp-nmt repository fragment:

* `src/mail.py` — a mail-notification script (`main`);
* `src/onmt/decoders/transformer.py` — `TransformerDecoderLayer` and
  `TransformerDecoder` (forward pass, masking, incremental cache,
  `map_state`, `_init_cache`);
* `src/onmt/models/model.py` — `NMTModel.forward`, the encoder/decoder
  composition used for training.

Tensors and the attention/feed-forward submodules (whose sources are not
part of this fragment: `onmt.modules.MultiHeadedAttention`,
`PositionwiseFeedForward`, `nn.LayerNorm`, `nn.Dropout`, the embeddings)
are abstracted as opaque function parameters; the control flow, mask
arithmetic, cache bookkeeping and call wiring — the code that *is* in the
fragment — are translated line by line.

Python runtime errors that the translated control flow can raise
(`TypeError`, `KeyError`, `AttributeError`, `IndexError`) are modelled with
an explicit error type and `Except`.
-/

/-- Python runtime errors reachable from the translated control flow. -/
inductive PyErr where
  | typeError
  | keyError
  | attributeError
  | indexError
  deriving DecidableEq, Repr

/-! ## `src/mail.py`

The script builds a fixed MIME message whose body is `sys.argv[1]` and
sends it over SMTP with hard-coded host, port, credentials, sender and
receiver list.  Everything the script passes to the mail library is
recorded in `SendmailCall`. -/

/-- The MIME message built by `main` (mail.py lines 25-30):
`MIMEText(sys.argv[1], 'plain', 'utf-8')` with `From`, `To` and `Subject`
headers. -/
structure MailMessage where
  body : String
  subtype : String
  charset : String
  fromHeader : String
  toHeader : String
  subject : String
  deriving DecidableEq, Repr

/-- `mail_host = "smtp.qq.com"` (mail.py line 14). -/
def mail_host : String := "smtp.qq.com"

/-- `mail_user = "1347481725@qq.com"` (mail.py line 15). -/
def mail_user : String := "1347481725@qq.com"

/-- `mail_pass` (mail.py line 16). -/
def mail_pass : String := "awmwznsyfpwliecg"

/-- `sender = '1347481725@qq.com'` (mail.py line 19). -/
def sender : String := "1347481725@qq.com"

/-- `receivers = ['liuyu@hit-mtlab.net']` (mail.py line 20). -/
def receivers : List String := ["liuyu@hit-mtlab.net"]

/-- The message `main` builds from the first command-line argument
(mail.py lines 25-30). -/
def buildMessage (arg1 : String) : MailMessage :=
  { body := arg1
    subtype := "plain"
    charset := "utf-8"
    fromHeader := "Best_BLEU"
    toHeader := "BLEU"
    subject := "Best_BLEU" }

/-- Everything `main` hands to the SMTP library on the success path
(mail.py lines 31-34): `connect(mail_host, 25)`, `login(mail_user,
mail_pass)`, `sendmail(sender, receivers, message.as_string())`. -/
structure SendmailCall where
  host : String
  port : Nat
  user : String
  password : String
  envelopeFrom : String
  envelopeTo : List String
  message : MailMessage
  deriving DecidableEq, Repr

/-- The complete SMTP interaction attempted by `main` for a given
`sys.argv[1]`. -/
def mailSend (arg1 : String) : SendmailCall :=
  { host := mail_host
    port := 25
    user := mail_user
    password := mail_pass
    envelopeFrom := sender
    envelopeTo := receivers
    message := buildMessage arg1 }

/-- Which exception, if any, the `connect`/`login`/`sendmail` sequence
raises.  `smtpException` is `smtplib.SMTPException`; `otherError` is any
exception of another class (e.g. a socket error). -/
inductive SmtpOutcome where
  | success
  | smtpException
  | otherError
  deriving DecidableEq, Repr

/-- Result of running `main`: a normal return together with the lines it
printed, or an uncaught exception propagating out. -/
inductive MainResult where
  | returned (printed : List String)
  | raised (e : PyErr)
  | raisedOther
  deriving DecidableEq, Repr

/-- `main` of mail.py (lines 11-37).  `sysArgv` is the full `sys.argv`
(element 0 is the script name).  `print(sys.argv[1])` happens before the
`try` block, so a missing argument raises `IndexError` uncaught; the
`try` block catches exactly `smtplib.SMTPException`. -/
def mail.main (sysArgv : List String) (outcome : SmtpOutcome) : MainResult :=
  match sysArgv.get? 1 with
  | none => .raised .indexError
  | some s =>
    match outcome with
    | .success => .returned [s, "邮件发送成功"]
    | .smtpException => .returned [s, "Error: 无法发送邮件"]
    | .otherError => .raisedOther

/-! ## Decoder masks (transformer.py lines 56-67)

`tgt_pad_mask` has shape `[B, 1, T_tgt]`; we model it by its entries
`pm b k` at index `[b, 0, k]`.  Entries are the 0/1 values of the
`uint8`/bool tensor produced by `.eq(pad_idx)`. -/

/-- Entry `[0, q, k]` of
`torch.ones([tgt_len, tgt_len], dtype=torch.uint8).triu_(1)`:
ones strictly above the diagonal. -/
def futureMaskEntry (q k : Nat) : Nat :=
  if q + 1 ≤ k then 1 else 0

/-- Entry `[b, q, k]` of `dec_mask = torch.gt(tgt_pad_mask + future_mask, 0)`
(transformer.py line 65), after broadcasting `[B,1,T] + [1,T,T]`. -/
def decMaskEntry (pm : Nat → Nat → Nat) (b q k : Nat) : Bool :=
  decide (0 < pm b k + futureMaskEntry q k)

/-- The mask value passed as `mask=` to `self_attn`:
either the combined `torch.gt(tgt_pad_mask + future_mask, 0)` or the raw
`tgt_pad_mask` (the `else` branch at transformer.py line 67). -/
inductive MaskArg where
  | decMask (pm : Nat → Nat → Nat)
  | padMask (pm : Nat → Nat → Nat)

/-- Truth value of the mask at broadcast index `[b, q, k]` (a pad mask of
shape `[B,1,T]` broadcasts over the query dimension; a nonzero entry is
true). -/
def MaskArg.entry : MaskArg → Nat → Nat → Nat → Bool
  | .decMask pm, b, q, k => decMaskEntry pm b q k
  | .padMask pm, b, _, k => decide (pm b k ≠ 0)

/-- `dec_mask` as computed at transformer.py lines 56-67 from
`code_type` and `step`. -/
def decMaskArg (code_type : String) (step : Option Nat)
    (tgt_pad_mask : Nat → Nat → Nat) : Option MaskArg :=
  match step with
  | none =>
    if code_type = "dec" then some (MaskArg.decMask tgt_pad_mask)
    else some (MaskArg.padMask tgt_pad_mask)
  | some _ => none

/-! ## Decoder state and the incremental cache

`self.state` of `TransformerDecoder` holds `"src"` (set by `init_state`)
and `"cache"` (set to `None` by `init_state`; `_init_cache` would replace
it with nested dicts).  Python dict values that can appear inside the
cache — `None`, tensors, sub-dicts — are modelled by `PyVal`/`PyDict`,
keeping insertion order. -/

mutual
/-- A Python value stored in the decoder cache: `None`, a tensor, or a
nested dict. -/
inductive PyVal (α : Type) where
  | pnone
  | tensor (t : α)
  | dict (entries : PyDict α)

/-- A Python dict in insertion order. -/
inductive PyDict (α : Type) where
  | nil
  | cons (k : String) (v : PyVal α) (rest : PyDict α)
end

/-- Dict lookup (`d[k]`), first match. -/
def PyDict.lookup {α : Type} (k : String) : PyDict α → Option (PyVal α)
  | .nil => none
  | .cons k2 v rest => if k2 = k then some v else PyDict.lookup k rest

mutual
/-- The shape of a value: keys, nesting and `None`/tensor positions, with
tensor payloads erased. -/
def PyVal.shape {α : Type} : PyVal α → PyVal Unit
  | .pnone => .pnone
  | .tensor _ => .tensor ()
  | .dict es => .dict es.shape

/-- The shape of a dict. -/
def PyDict.shape {α : Type} : PyDict α → PyDict Unit
  | .nil => .nil
  | .cons k v rest => .cons k v.shape rest.shape
end

/-- `self.state` of `TransformerDecoder`.  `src` is `none` while the key
is absent (before any `init_state`); `cache` is `none` while it is absent
or `None`. -/
structure DecoderState (τ α : Type) where
  src : Option τ
  cache : Option (PyDict α)

/-- `init_state` (transformer.py lines 173-176): stores `src`, resets the
cache to `None`. -/
def TransformerDecoder.init_state {τ α : Type} (src : τ) : DecoderState τ α :=
  { src := some src, cache := none }

/-- `_recursive_map` of `map_state` (transformer.py lines 179-185):
entries that are `None` stay; sub-dicts are recursed into with the
*default* `batch_dim=0`; other values `v` become `fn(v, batch_dim)`. -/
def recursiveMap {α : Type} (fn : α → Nat → α) (batch_dim : Nat) :
    PyDict α → PyDict α
  | .nil => .nil
  | .cons k v rest =>
    let v2 := match v with
      | .pnone => PyVal.pnone
      | .dict es => PyVal.dict (recursiveMap fn 0 es)
      | .tensor t => PyVal.tensor (fn t batch_dim)
    .cons k v2 (recursiveMap fn batch_dim rest)

/-- `map_state` (transformer.py lines 178-189): `state["src"] =
fn(state["src"], 1)` (a `KeyError` if `init_state` never ran), then
`_recursive_map(state["cache"])` when the cache is not `None`. -/
def TransformerDecoder.map_state {β : Type} (fn : β → Nat → β)
    (st : DecoderState β β) : Except PyErr (DecoderState β β) :=
  match st.src with
  | none => .error .keyError
  | some s =>
    .ok { src := some (fn s 1)
          cache := match st.cache with
            | none => none
            | some c => some (recursiveMap fn 0 c) }

/-- Body of `_init_cache` for one layer (transformer.py lines 239-241):
`{"memory_keys": None, "memory_values": None}` then `"self_keys"`,
`"self_values"` added, all `None`. -/
def layerCacheInit {α : Type} : PyDict α :=
  .cons "memory_keys" .pnone
    (.cons "memory_values" .pnone
      (.cons "self_keys" .pnone
        (.cons "self_values" .pnone .nil)))

/-- The dict the body of `_init_cache` builds (transformer.py lines
235-242): `"layer_i"` mapped to an all-`None` layer cache for each layer
index `i` in order. -/
def initCacheBody (α : Type) (numLayers : Nat) : PyDict α :=
  (List.range numLayers).foldr
    (fun i rest => PyDict.cons ("layer_" ++ toString i) (.dict layerCacheInit) rest)
    .nil

/-- Parameter count of `def _init_cache(self):` (transformer.py line 235),
counting `self`. -/
def initCacheParamCount : Nat := 1

/-- Positional argument count of the call `self._init_cache(memory_bank)`
(transformer.py line 197), counting the bound `self`. -/
def initCacheCallArgCount : Nat := 2

/-- The call `self._init_cache(memory_bank)`: Python raises `TypeError`
when the argument count does not match the parameter list (no defaults,
no varargs); only on a match would the body run. -/
def initCacheCall (α : Type) (numLayers : Nat) : Except PyErr (PyDict α) :=
  if initCacheCallArgCount = initCacheParamCount then
    .ok (initCacheBody α numLayers)
  else
    .error .typeError

/-! ## `TransformerDecoderLayer.forward` (transformer.py lines 40-100)

Activations live in an abstract type `α` with `+` for the residual
connections.  The layer's submodules — built in `__init__` from classes
outside this fragment — are opaque functions collected in `LayerFns`.
`self_attn` and `context_attn` receive the query/key/value tensors, the
mask, the layer cache and the `type` string, and return `(output, attn)`
as `MultiHeadedAttention` does. -/

/-- The submodules of one `TransformerDecoderLayer`. -/
structure LayerFns (α : Type) where
  self_attn : α → α → α → Option MaskArg → Option (PyVal α) → String → α × α
  context_attn : α → α → α → Option MaskArg → Option (PyVal α) → String → α × α
  feed_forward : α → α
  layer_norm_1 : α → α
  layer_norm_2 : α → α
  drop : α → α

/-- `TransformerDecoderLayer.forward` (transformer.py lines 40-100).
`memory_bank = None` in `code_type='dec'` mode is an error inside
`context_attn` (a linear layer applied to `None`), modelled as
`typeError`; the pad masks are passed exactly as in the source. -/
def TransformerDecoderLayer.forward {α : Type} [Add α] (L : LayerFns α)
    (inputs : α) (memory_bank : Option α)
    (src_pad_mask : Option (Nat → Nat → Nat))
    (tgt_pad_mask : Nat → Nat → Nat)
    (code_type : String) (layer_cache : Option (PyVal α))
    (step : Option Nat) : Except PyErr α :=
  let dec_mask := decMaskArg code_type step tgt_pad_mask
  let input_norm := L.layer_norm_1 inputs
  let query0 := (L.self_attn input_norm input_norm input_norm
      dec_mask layer_cache "self").1
  let query := L.drop query0 + inputs
  if code_type = "dec" then
    match memory_bank with
    | none => .error .typeError
    | some mb =>
      let query_norm := L.layer_norm_2 query
      let mid0 := (L.context_attn mb mb query_norm
          (src_pad_mask.map MaskArg.padMask) layer_cache "context").1
      let mid := L.drop mid0 + query
      .ok (L.feed_forward mid)
  else
    .ok (L.feed_forward query)

/-! ## `TransformerDecoder.forward` (transformer.py lines 194-233)

The target (and source) token tensors live in an abstract type `τ`;
`wordsAt x b t` is entry `[b, t]` of `x[:, :, 0].transpose(0, 1)`, and
`embeddings`/`transpose01`/`layer_norm` are the opaque tensor-level
operations the decoder composes. -/

/-- The submodules and tensor operations of a `TransformerDecoder`. -/
structure DecoderFns (τ α : Type) where
  word_padding_idx : Nat
  wordsAt : τ → Nat → Nat → Nat
  transpose01 : α → α
  embeddings : τ → Option Nat → α
  layers : List (LayerFns α)
  layer_norm : α → α

/-- The pad mask `x[:, :, 0].transpose(0, 1).data.eq(pad_idx).unsqueeze(1)`
as 0/1 entries at `[b, 0, t]`. -/
def padMaskOf {τ α : Type} (D : DecoderFns τ α) (x : τ) : Nat → Nat → Nat :=
  fun b t => if D.wordsAt x b t = D.word_padding_idx then 1 else 0

/-- The `for i, layer in enumerate(self.transformer_layers)` loop
(transformer.py lines 217-227): `layer_cache =
self.state["cache"]["layer_{}".format(i)] if step is not None else None`,
then the layer call threading `output`. -/
def runLayers {τ α : Type} [Add α] (st : DecoderState τ α)
    (code_type : String) (step : Option Nat)
    (src_memory_bank : Option α) (src_pad_mask : Option (Nat → Nat → Nat))
    (tgt_pad_mask : Nat → Nat → Nat) :
    Nat → List (LayerFns α) → α → Except PyErr α
  | _, [], output => .ok output
  | i, L :: rest, output => do
    let layer_cache ←
      match step with
      | none => pure none
      | some _ =>
        match st.cache with
        | none => throw PyErr.typeError
        | some c =>
          match PyDict.lookup ("layer_" ++ toString i) c with
          | none => throw PyErr.keyError
          | some v => pure (some v)
    let output2 ← TransformerDecoderLayer.forward L output src_memory_bank
        src_pad_mask tgt_pad_mask code_type layer_cache step
    runLayers st code_type step src_memory_bank src_pad_mask tgt_pad_mask
      (i + 1) rest output2

/-- The source-side inputs of `TransformerDecoder.forward`
(transformer.py lines 202-208): in `'dec'` mode it reads
`self.state["src"]` (a `KeyError` without a prior `init_state`) and calls
`memory_bank.transpose(0, 1)` (an `AttributeError` on `None`); in any
other mode `src_memory_bank` and `src_pad_mask` stay `None`. -/
def srcSideOf {τ α : Type} (D : DecoderFns τ α) (st : DecoderState τ α)
    (memory_bank : Option α) (code_type : String) :
    Except PyErr (Option α × Option (Nat → Nat → Nat)) :=
  if code_type = "dec" then do
    let src ←
      match st.src with
      | some s => pure s
      | none => throw PyErr.keyError
    let mb ←
      match memory_bank with
      | some m => pure m
      | none => throw PyErr.attributeError
    pure (some (D.transpose01 mb), some (padMaskOf D src))
  else
    pure ((none : Option α), (none : Option (Nat → Nat → Nat)))

/-- `TransformerDecoder.forward` (transformer.py lines 194-233).
`if step == 0: self._init_cache(memory_bank)` runs first; the assignment
inside `_init_cache` is unreachable because that call raises `TypeError`
(see `initCacheCall`), so the state is never written and the function's
only result is the decoder output. -/
def TransformerDecoder.forward {τ α : Type} [Add α] (D : DecoderFns τ α)
    (st : DecoderState τ α) (tgt : τ) (memory_bank : Option α)
    (code_type : String) (step : Option Nat) : Except PyErr α := do
  if step = some 0 then
    let _cache ← initCacheCall α D.layers.length
    pure ()
  let srcSide ← srcSideOf D st memory_bank code_type
  let (src_memory_bank, src_pad_mask) := srcSide
  let emb := D.embeddings tgt step
  let output := D.transpose01 emb
  let tgt_pad_mask := padMaskOf D tgt
  let outputN ← runLayers st code_type step src_memory_bank src_pad_mask
      tgt_pad_mask 0 D.layers output
  let dec_outs := D.transpose01 (D.layer_norm outputN)
  pure dec_outs

/-! ## `NMTModel.forward` (model.py lines 20-51)

The encoder and decoder are abstract stateful modules: `forward` takes
the module state, an input sequence, an optional memory bank and a
`code_type`, and returns the new state and an output; `init_state`
replaces the state from a sequence.  Sequences are lists, so the slice
`x[:-1]` is `List.dropLast`. -/

/-- An abstract encoder/decoder module with mutable state `σ`, sequence
inputs `List β` and tensor outputs `μ`. -/
structure PyModule (σ β μ : Type) where
  forward : σ → List β → Option μ → String → σ × μ
  init_state : σ → List β → σ

/-- `NMTModel.forward(src, tgt, bptt)` (model.py lines 20-51), returning
the final module states and the pair `(dec_out_p, dec_out_b)`. -/
def NMTModel.forward {σe σd β μ : Type}
    (enc : PyModule σe β μ) (dec : PyModule σd β μ)
    (se : σe) (sd : σd) (src tgt : List β) (bptt : Bool) :
    (σe × σd) × (μ × μ) :=
  let tgt_p := tgt.dropLast
  let (se1, memory_bank_p) := enc.forward se src none "enc"
  let sd1 := if bptt = false then dec.init_state sd src else sd
  let (sd2, dec_out_p) := dec.forward sd1 tgt_p (some memory_bank_p) "dec"
  let src_b := src.dropLast
  let (sd3, memory_bank_b) := dec.forward sd2 tgt none "enc"
  let se2 := if bptt = false then enc.init_state se1 tgt else se1
  let (se3, dec_out_b) := enc.forward se2 src_b (some memory_bank_b) "dec"
  ((se3, sd3), (dec_out_p, dec_out_b))

/-! ## Claim-side compositions

The following definitions state, as Lean functions, the compositions the
specification describes (pre-norm self-attention with residual, pre-norm
cross-attention with residual, feed-forward; the layer stack with a final
`LayerNorm`).  The theorems below compare the translated source against
them. -/

/-- The self-attention sublayer result
`drop(self_attn(layer_norm_1(inputs))) + inputs`. -/
def layerOutSelf {α : Type} [Add α] (L : LayerFns α) (inputs : α)
    (tpm : Nat → Nat → Nat) (code_type : String)
    (cache : Option (PyVal α)) (step : Option Nat) : α :=
  L.drop (L.self_attn (L.layer_norm_1 inputs) (L.layer_norm_1 inputs)
      (L.layer_norm_1 inputs) (decMaskArg code_type step tpm) cache "self").1
    + inputs

/-- A full `'dec'`-mode layer:
`feed_forward(drop(context_attn(memory, memory, layer_norm_2(q))) + q)`
with `q = drop(self_attn(layer_norm_1(inputs))) + inputs`. -/
def layerOutDec {α : Type} [Add α] (L : LayerFns α) (inputs mb : α)
    (spm : Option (Nat → Nat → Nat)) (tpm : Nat → Nat → Nat)
    (cache : Option (PyVal α)) (step : Option Nat) : α :=
  let query := layerOutSelf L inputs tpm "dec" cache step
  L.feed_forward
    (L.drop (L.context_attn mb mb (L.layer_norm_2 query)
        (Option.map MaskArg.padMask spm) cache "context").1 + query)

/-- The full-sequence `'dec'`-mode decoder pass description: embed, pass
through every layer in sequence, apply the final `LayerNorm`, transpose
back. -/
def decoderStackSpec {τ α : Type} [Add α] (D : DecoderFns τ α)
    (srcT tgt : τ) (mb : α) : α :=
  D.transpose01 (D.layer_norm
    (D.layers.foldl
      (fun out L => layerOutDec L out (D.transpose01 mb)
        (some (padMaskOf D srcT)) (padMaskOf D tgt) none none)
      (D.transpose01 (D.embeddings tgt none))))

/-! ## Claim-side description of `map_state` -/

mutual
/-- The claim-side action on one cache value: `None` unchanged, a tensor
mapped with `fn · 0`, a sub-dict recursed into. -/
def cacheValSpec {β : Type} (fn : β → Nat → β) : PyVal β → PyVal β
  | .pnone => .pnone
  | .tensor t => .tensor (fn t 0)
  | .dict es => .dict (cacheDictSpec fn es)

/-- The claim-side action on a cache dict: same keys, values mapped. -/
def cacheDictSpec {β : Type} (fn : β → Nat → β) : PyDict β → PyDict β
  | .nil => .nil
  | .cons k v rest => .cons k (cacheValSpec fn v) (cacheDictSpec fn rest)
end

/-! ## Concrete instances

Small executable instantiations (activations and token tensors are
natural numbers) used to evaluate the translated functions at concrete
inputs. -/

/-- A concrete `TransformerDecoderLayer` over `Nat` activations. -/
def natLayerA : LayerFns Nat :=
  { self_attn := fun a b c _ _ _ => (a + b + c, 0)
    context_attn := fun a b c _ _ _ => (a + 2 * b + 3 * c, 0)
    feed_forward := fun a => a + 7
    layer_norm_1 := fun a => 2 * a
    layer_norm_2 := fun a => 3 * a
    drop := fun a => a + 1 }

/-- A concrete one-layer `TransformerDecoder` over `Nat` tensors. -/
def natDecoder : DecoderFns Nat Nat :=
  { word_padding_idx := 0
    wordsAt := fun x b t => x + b + t
    transpose01 := fun a => a + 10
    embeddings := fun x s => 5 * x + (match s with | none => 0 | some n => n + 1)
    layers := [natLayerA]
    layer_norm := fun a => 2 * a }

/-- A `'dec'`-mode layer call with a memory bank computes exactly the
claim-side composition. -/
theorem layer_forward_dec_eq {α : Type} [Add α] (L : LayerFns α)
    (inputs mb : α) (spm : Option (Nat → Nat → Nat))
    (tpm : Nat → Nat → Nat) (cache : Option (PyVal α)) (step : Option Nat) :
    TransformerDecoderLayer.forward L inputs (some mb) spm tpm "dec" cache step
      = .ok (layerOutDec L inputs mb spm tpm cache step) := rfl

/-- In any non-`'dec'` mode the layer stops after the self-attention
sublayer and the feed-forward, for every memory bank and source mask. -/
theorem layer_forward_enc_eq {α : Type} [Add α] (L : LayerFns α)
    (inputs : α) (mbL : Option α) (spm : Option (Nat → Nat → Nat))
    (tpm : Nat → Nat → Nat) (code_type : String) (cache : Option (PyVal α))
    (step : Option Nat) (h : code_type ≠ "dec") :
    TransformerDecoderLayer.forward L inputs mbL spm tpm code_type cache step
      = .ok (L.feed_forward (layerOutSelf L inputs tpm code_type cache step)) := by
  simp [TransformerDecoderLayer.forward, layerOutSelf, h]

/-- The layer loop in `'dec'` mode with `step=None` folds the claim-side
layer composition over the layer list; the cache lookup is skipped, so
the state is never read. -/
theorem runLayers_dec_eq {τ α : Type} [Add α] (st : DecoderState τ α)
    (mb' : α) (spm : Nat → Nat → Nat) (tpm : Nat → Nat → Nat) :
    ∀ (i : Nat) (ls : List (LayerFns α)) (out : α),
    runLayers st "dec" none (some mb') (some spm) tpm i ls out
      = .ok (ls.foldl
          (fun o L => layerOutDec L o mb' (some spm) tpm none none) out) := by
  intro i ls
  induction ls generalizing i with
  | nil => intro out; rfl
  | cons L rest ih =>
    intro out
    calc runLayers st "dec" none (some mb') (some spm) tpm i (L :: rest) out
        = runLayers st "dec" none (some mb') (some spm) tpm (i + 1) rest
            (layerOutDec L out mb' (some spm) tpm none none) := rfl
      _ = _ := by rw [ih]; rfl

/-- The layer loop in any non-`'dec'` mode with `step=None` folds the
self-attention-plus-feed-forward composition, independently of the state
and the source-side inputs. -/
theorem runLayers_enc_eq {τ α : Type} [Add α] (st : DecoderState τ α)
    (code_type : String) (smb : Option α) (spm : Option (Nat → Nat → Nat))
    (tpm : Nat → Nat → Nat) (h : code_type ≠ "dec") :
    ∀ (i : Nat) (ls : List (LayerFns α)) (out : α),
    runLayers st code_type none smb spm tpm i ls out
      = .ok (ls.foldl
          (fun o L => L.feed_forward (layerOutSelf L o tpm code_type none none))
          out) := by
  intro i ls
  induction ls generalizing i with
  | nil => intro out; rfl
  | cons L rest ih =>
    intro out
    have step1 : runLayers st code_type none smb spm tpm i (L :: rest) out
        = Except.bind
            (TransformerDecoderLayer.forward L out smb spm tpm code_type none none)
            (fun o2 => runLayers st code_type none smb spm tpm (i + 1) rest o2) := rfl
    rw [step1, layer_forward_enc_eq L out smb spm tpm code_type none none h]
    show runLayers st code_type none smb spm tpm (i + 1) rest
        (L.feed_forward (layerOutSelf L out tpm code_type none none)) = _
    rw [ih]
    rfl

/-- In any non-`'dec'` mode the source side is not consulted: no state
read, no memory bank, no source pad mask. -/
theorem srcSideOf_enc {τ α : Type} (D : DecoderFns τ α) (st : DecoderState τ α)
    (mb : Option α) (code_type : String) (h : code_type ≠ "dec") :
    srcSideOf D st mb code_type = .ok (none, none) := by
  simp only [srcSideOf, h, if_neg, ite_false]
  rfl

/-- In `'dec'` mode with an initialized state and a memory bank, the
source side is the transposed memory bank and the source pad mask. -/
theorem srcSideOf_dec {τ α : Type} (D : DecoderFns τ α) (s : τ)
    (c : Option (PyDict α)) (m : α) :
    srcSideOf D ⟨some s, c⟩ (some m) "dec"
      = .ok (some (D.transpose01 m), some (padMaskOf D s)) := rfl

/-- Normal form of a `step=None` decoder call: source side, layer loop,
final `LayerNorm`, transpose. -/
theorem forward_unfold {τ α : Type} [Add α] (D : DecoderFns τ α)
    (st : DecoderState τ α) (tgt : τ) (mb : Option α) (code_type : String) :
    TransformerDecoder.forward D st tgt mb code_type none
      = Except.bind (srcSideOf D st mb code_type)
          (fun p => Except.bind
            (runLayers st code_type none p.1 p.2 (padMaskOf D tgt) 0 D.layers
              (D.transpose01 (D.embeddings tgt none)))
            (fun outputN => Except.ok (D.transpose01 (D.layer_norm outputN)))) := rfl

/-- A non-`'dec'` decoder call computes the self-attention-only stack,
for every state and memory bank. -/
theorem forward_enc_eq {τ α : Type} [Add α] (D : DecoderFns τ α)
    (st : DecoderState τ α) (tgt : τ) (mb : Option α) (code_type : String)
    (h : code_type ≠ "dec") :
    TransformerDecoder.forward D st tgt mb code_type none
      = .ok (D.transpose01 (D.layer_norm
          (D.layers.foldl
            (fun o L => L.feed_forward
              (layerOutSelf L o (padMaskOf D tgt) code_type none none))
            (D.transpose01 (D.embeddings tgt none))))) := by
  rw [forward_unfold, srcSideOf_enc D st mb code_type h]
  show Except.bind
      (runLayers st code_type none none none (padMaskOf D tgt) 0 D.layers
        (D.transpose01 (D.embeddings tgt none))) _ = _
  rw [runLayers_enc_eq st code_type none none (padMaskOf D tgt) h]
  rfl

/-- A full-sequence `'dec'` decoder call computes `decoderStackSpec`. -/
theorem forward_dec_eq {τ α : Type} [Add α] (D : DecoderFns τ α)
    (s : τ) (c : Option (PyDict α)) (tgt : τ) (m : α) :
    TransformerDecoder.forward D ⟨some s, c⟩ tgt (some m) "dec" none
      = .ok (decoderStackSpec D s tgt m) := by
  rw [forward_unfold]
  show Except.bind
      (runLayers ⟨some s, c⟩ "dec" none (some (D.transpose01 m))
        (some (padMaskOf D s)) (padMaskOf D tgt) 0 D.layers
        (D.transpose01 (D.embeddings tgt none))) _ = _
  rw [runLayers_dec_eq]
  rfl

/-- `_recursive_map` started with the default `batch_dim=0` is exactly
the claim-side cache map. -/
theorem recursiveMap_zero_eq {β : Type} (fn : β → Nat → β) :
    ∀ (d : PyDict β), recursiveMap fn 0 d = cacheDictSpec fn d
  | .nil => rfl
  | .cons _ .pnone rest => by
    simp only [recursiveMap, cacheDictSpec, cacheValSpec,
      recursiveMap_zero_eq fn rest]
  | .cons _ (.tensor t) rest => by
    simp only [recursiveMap, cacheDictSpec, cacheValSpec,
      recursiveMap_zero_eq fn rest]
  | .cons _ (.dict es) rest => by
    simp only [recursiveMap, cacheDictSpec, cacheValSpec,
      recursiveMap_zero_eq fn rest, recursiveMap_zero_eq fn es]

/-- `_recursive_map` never changes the key structure, the nesting, or
which entries are `None`. -/
theorem recursiveMap_shape {β : Type} (fn : β → Nat → β) :
    ∀ (bd : Nat) (d : PyDict β), (recursiveMap fn bd d).shape = d.shape
  | _, .nil => rfl
  | bd, .cons _ .pnone rest => by
    simp only [recursiveMap, PyDict.shape, PyVal.shape,
      recursiveMap_shape fn bd rest]
  | bd, .cons _ (.tensor t) rest => by
    simp only [recursiveMap, PyDict.shape, PyVal.shape,
      recursiveMap_shape fn bd rest]
  | bd, .cons _ (.dict es) rest => by
    simp only [recursiveMap, PyDict.shape, PyVal.shape,
      recursiveMap_shape fn bd rest, recursiveMap_shape fn 0 es]

/-! ## Claims -/

/-- C1: contrary to the claim, a `TransformerDecoder.forward` call with
`step=0` never initializes `self.state["cache"]`: the very first
statement, `self._init_cache(memory_bank)`, raises `TypeError` because
`_init_cache` is defined with no parameter besides `self`, so the call
aborts before any decoding — for every decoder, state, target, memory
bank and `code_type`. -/
theorem step0_call_raises_typeerror {τ α : Type} [Add α] (D : DecoderFns τ α)
    (st : DecoderState τ α) (tgt : τ) (mb : Option α) (code_type : String) :
    TransformerDecoder.forward D st tgt mb code_type (some 0)
      = .error PyErr.typeError := rfl

/-- C2: contrary to the claim, token-by-token decoding with
`step = 0, 1, ...` cannot reproduce the full-sequence pass, because the
very first step (`step=0`) raises `TypeError` in the
`self._init_cache(memory_bank)` call, while the same decoder, state and
inputs run fine as a single full-sequence call (`step=None`): evaluated
here on a concrete one-layer decoder. -/
theorem stepwise_run_crashes_at_step0 :
    TransformerDecoder.forward natDecoder ⟨some 4, none⟩ 3 (some 6) "dec" (some 0)
      = .error PyErr.typeError
    ∧ ∃ out,
        TransformerDecoder.forward natDecoder ⟨some 4, none⟩ 3 (some 6) "dec" none
          = .ok out :=
  ⟨rfl, ⟨_, rfl⟩⟩

/-- C3: in a `step=None`, `code_type='dec'` layer call the self-attention
mask is `torch.gt(tgt_pad_mask + future_mask, 0)`, and its entry
`[b, q, k]` is true exactly when `tgt_pad_mask[b, 0, k]` is nonzero or
`k > q`; the diagonal and earlier positions are not future-masked. -/
theorem dec_mask_matches_claim (tpm : Nat → Nat → Nat) (b q k : Nat) :
    decMaskArg "dec" none tpm = some (MaskArg.decMask tpm)
    ∧ (decMaskEntry tpm b q k = true ↔ (tpm b k ≠ 0 ∨ k > q)) := by
  refine ⟨rfl, ?_⟩
  have h : (0 < tpm b k + futureMaskEntry q k) ↔ (tpm b k ≠ 0 ∨ k > q) := by
    unfold futureMaskEntry
    split <;> omega
  simpa [decMaskEntry] using h

/-- C4: `NMTModel.forward(src, tgt, bptt=False)` encodes `src` in `'enc'`
mode, initializes the decoder state with `src`, decodes `tgt[:-1]` in
`'dec'` mode against the encoder memory bank, then runs the decoder in
`'enc'` mode on the full `tgt`, initializes the encoder state with `tgt`,
runs the encoder in `'dec'` mode on `src[:-1]` against that memory bank,
and returns the pair of the two decoder outputs. -/
theorem nmt_forward_wiring {σe σd β μ : Type}
    (enc : PyModule σe β μ) (dec : PyModule σd β μ)
    (se : σe) (sd : σd) (src tgt : List β) :
    NMTModel.forward enc dec se sd src tgt false =
      (let p := enc.forward se src none "enc"
       let d := dec.forward (dec.init_state sd src) tgt.dropLast (some p.2) "dec"
       let bk := dec.forward d.1 tgt none "enc"
       let e := enc.forward (enc.init_state p.1 tgt) src.dropLast (some bk.2) "dec"
       ((e.1, bk.1), (d.2, e.2))) := rfl

/-- C5: a `code_type='dec'` layer call returns
`feed_forward(drop(context_attn(memory, memory, layer_norm_2(q))) + q)`
with `q = drop(self_attn(layer_norm_1(inputs))) + inputs`: pre-norm
self-attention with residual, pre-norm cross-attention with residual,
then the position-wise feed-forward sublayer (see `layerOutDec`). -/
theorem layer_dec_sublayers_in_order {α : Type} [Add α] (L : LayerFns α)
    (inputs mb : α) (spm : Option (Nat → Nat → Nat)) (tpm : Nat → Nat → Nat)
    (cache : Option (PyVal α)) (step : Option Nat) :
    TransformerDecoderLayer.forward L inputs (some mb) spm tpm "dec" cache step
      = .ok (layerOutDec L inputs mb spm tpm cache step) :=
  layer_forward_dec_eq L inputs mb spm tpm cache step

/-- C6: a full-sequence `'dec'` decoder call embeds the target, threads
it through every transformer layer in order, applies the final
`LayerNorm`, transposes back, and returns that single tensor and nothing
else (see `decoderStackSpec`). -/
theorem decoder_forward_stack {τ α : Type} [Add α] (D : DecoderFns τ α)
    (s : τ) (c : Option (PyDict α)) (tgt : τ) (m : α) :
    TransformerDecoder.forward D ⟨some s, c⟩ tgt (some m) "dec" none
      = .ok (decoderStackSpec D s tgt m) :=
  forward_dec_eq D s c tgt m

/-- C7: the outgoing message's body is exactly `sys.argv[1]` as UTF-8
plain text, its subject is `Best_BLEU`, and the host, port, login,
sender and receiver list are hard-coded constants independent of the
input. -/
theorem mail_transport_fixed (s : String) :
    mailSend s =
      { host := "smtp.qq.com"
        port := 25
        user := "1347481725@qq.com"
        password := "awmwznsyfpwliecg"
        envelopeFrom := "1347481725@qq.com"
        envelopeTo := ["liuyu@hit-mtlab.net"]
        message :=
          { body := s
            subtype := "plain"
            charset := "utf-8"
            fromHeader := "Best_BLEU"
            toHeader := "BLEU"
            subject := "Best_BLEU" } } := rfl

/-- C8: in any non-`'dec'` mode the layer skips cross-attention and the
second layer norm (its result does not involve `context_attn`,
`layer_norm_2`, the memory bank or the source mask), and the decoder's
`step=None` forward neither reads `self.state` nor the memory bank: the
call with an arbitrary state and memory bank equals the call with an
empty state and `memory_bank=None`, and it succeeds. -/
theorem enc_mode_independent {τ α : Type} [Add α] (code_type : String)
    (h : code_type ≠ "dec") (L : LayerFns α) (inputs : α) (mbL : Option α)
    (spm : Option (Nat → Nat → Nat)) (tpm : Nat → Nat → Nat)
    (cache : Option (PyVal α)) (step : Option Nat) (D : DecoderFns τ α)
    (st : DecoderState τ α) (tgt : τ) (mb : Option α) :
    TransformerDecoderLayer.forward L inputs mbL spm tpm code_type cache step
      = .ok (L.feed_forward (layerOutSelf L inputs tpm code_type cache step))
    ∧ TransformerDecoder.forward D st tgt mb code_type none
        = TransformerDecoder.forward D ⟨none, none⟩ tgt none code_type none
    ∧ ∃ out, TransformerDecoder.forward D st tgt mb code_type none = .ok out := by
  refine ⟨layer_forward_enc_eq L inputs mbL spm tpm code_type cache step h, ?_, ?_⟩
  · rw [forward_enc_eq D st tgt mb code_type h,
      forward_enc_eq D ⟨none, none⟩ tgt none code_type h]
  · exact ⟨_, forward_enc_eq D st tgt mb code_type h⟩

/-- Witness for C8 at `code_type="enc"` on the concrete one-layer
decoder, with a populated state and memory bank. -/
theorem enc_mode_independent_witness :
    ("enc" : String) ≠ "dec"
    ∧ ∃ out,
        TransformerDecoder.forward natDecoder ⟨some 4, none⟩ 3 (some 6) "enc" none
          = .ok out :=
  ⟨by decide,
    (enc_mode_independent "enc" (by decide) natLayerA 0 none none
      (fun _ _ => 0) none none natDecoder ⟨some 4, none⟩ 3 (some 6)).2.2⟩

/-- C9: `main` prints the argument and the success message on success,
prints the error message and returns normally on `smtplib.SMTPException`,
lets any other exception from the send sequence propagate, and raises
`IndexError` before the `try` block when no command-line argument is
given. -/
theorem mail_main_exceptions (argv0 s : String) (rest : List String)
    (o1 o2 : SmtpOutcome) :
    mail.main (argv0 :: s :: rest) .success = .returned [s, "邮件发送成功"]
    ∧ mail.main (argv0 :: s :: rest) .smtpException
        = .returned [s, "Error: 无法发送邮件"]
    ∧ mail.main (argv0 :: s :: rest) .otherError = .raisedOther
    ∧ mail.main [argv0] o1 = .raised PyErr.indexError
    ∧ mail.main [] o2 = .raised PyErr.indexError :=
  ⟨rfl, rfl, rfl, rfl, rfl⟩

/-- C10: `map_state fn` replaces `state["src"]` by `fn(src, 1)` and maps
the cache (when present) with `fn(·, 0)` on every non-`None`, non-dict
value, recursing into sub-dicts (see `cacheDictSpec`); for every
`batch_dim` the key structure, nesting and `None` entries are
unchanged. -/
theorem map_state_frame {β : Type} (fn : β → Nat → β) (s : β)
    (c : Option (PyDict β)) :
    TransformerDecoder.map_state fn ⟨some s, c⟩
      = .ok ⟨some (fn s 1), Option.map (cacheDictSpec fn) c⟩
    ∧ ∀ (bd : Nat) (d : PyDict β), (recursiveMap fn bd d).shape = d.shape := by
  constructor
  · cases c with
    | none => rfl
    | some d =>
      simp [TransformerDecoder.map_state, recursiveMap_zero_eq fn d]
  · exact recursiveMap_shape fn
